import Mathlib

/-!
Shallow embedding of the configuration subsystem of blpapi-http
(src/lib/config.ts): the declared schema, the layered source resolution and
validation engine, the derived option bundles (logging, body parsing,
throttling, HTTP(S) server, BLPAPI session), the revocation-list watcher
step with change notification, and the config accessor.
-/

namespace BlpapiHttp

/-- Raw configuration values as they appear in the layered sources and in the
validated store. -/
inductive RawValue where
  | str (s : String)
  | int (n : Int)
  | bool (b : Bool)
deriving DecidableEq, Repr

/-- Format descriptors declared in the convict schema (config.ts lines
31-229): ipaddress, port, integer, String, Boolean. -/
inductive Format where
  | ipaddress
  | port
  | integer
  | string
  | boolean
deriving DecidableEq, Repr

/-- One schema entry: dotted key path, format, default value, optional
environment-variable name, optional CLI flag name (doc strings omitted, they
carry no behavior). -/
structure SchemaEntry where
  name : String
  format : Format
  defaultVal : RawValue
  env : Option String
  arg : Option String
deriving DecidableEq, Repr

/-- The schema declared in config.ts lines 31-229, flattened to dotted key
paths, in declaration order. -/
def schema : List SchemaEntry :=
  [ ⟨"api.host", .ipaddress, .str "127.0.0.1",
      some "BLPAPI_HTTP_API_HOST", some "api-host"⟩,
    ⟨"api.port", .port, .int 8194,
      some "BLPAPI_HTTP_API_PORT", some "api-port"⟩,
    ⟨"api.authenticationMode", .string, .str "APPLICATION_ONLY",
      some "BLPAPI_HTTP_API_AUTHENTICATION_MODE", some "api-authenticationMode"⟩,
    ⟨"api.authenticationAppName", .string, .str "",
      some "BLPAPI_HTTP_API_AUTHENTICATION_APPNAME",
      some "api-authenticationAppName"⟩,
    ⟨"port", .port, .int 80, some "BLPAPI_HTTP_PORT", some "port"⟩,
    ⟨"expiration", .integer, .int 5, none, some "session-expiration"⟩,
    ⟨"https.enable", .boolean, .bool false, none, some "https-enable"⟩,
    ⟨"https.ca", .string, .str "../keys/bloomberg-ca-crt.pem",
      none, some "https-ca"⟩,
    ⟨"https.cert", .string, .str "../keys/hackathon-crt.pem",
      none, some "https-cert"⟩,
    ⟨"https.key", .string, .str "../keys/hackathon-key.pem",
      none, some "https-key"⟩,
    ⟨"https.crl", .string, .str "", none, some "https-crl"⟩,
    ⟨"logging.stdout", .boolean, .bool true, none, some "logging-stdout"⟩,
    ⟨"logging.stdoutLevel", .string, .str "info", none, some "logging-stdoutLevel"⟩,
    ⟨"logging.logfile", .string, .str "blpapi-http.log", none, some "logging-logfile"⟩,
    ⟨"logging.logfileLevel", .string, .str "trace", none, some "logging-logfileLevel"⟩,
    ⟨"logging.reqBody", .boolean, .bool false, none, some "logging-reqBody"⟩,
    ⟨"logging.clientDetail", .boolean, .bool false, none, some "logging-clientDetail"⟩,
    ⟨"service.name", .string, .str "BLPAPI-HTTP", none, some "service-name"⟩,
    ⟨"service.version", .string, .str "1.0.0", none, some "service-version"⟩,
    ⟨"maxBodySize", .integer, .int 1024, none, some "maxBodySize"⟩,
    ⟨"throttle.burst", .integer, .int 100, none, some "throttle-burst"⟩,
    ⟨"throttle.rate", .integer, .int 50, none, some "throttle-rate"⟩,
    ⟨"websocket.socket-io.enable", .boolean, .bool true,
      none, some "websocket-socket-io-enable"⟩,
    ⟨"websocket.socket-io.port", .port, .int 3001,
      none, some "websocket-socket-io-port"⟩,
    ⟨"websocket.ws.enable", .boolean, .bool true,
      none, some "websocket-ws-enable"⟩,
    ⟨"websocket.ws.port", .port, .int 3002, none, some "websocket-ws-port"⟩,
    ⟨"longpoll.maxbuffersize", .integer, .int 50,
      none, some "longpoll-maxbuffersize"⟩,
    ⟨"longpoll.pollfrequency", .integer, .int 100,
      none, some "longpoll-pollfrequency"⟩,
    ⟨"longpoll.polltimeout", .integer, .int 30000,
      none, some "longpoll-polltimeout"⟩ ]

/-- Modelled from the spec: the layered source resolver of the external
convict library (only its schema and the loadFile/validate calls appear under
src/, config.ts lines 31-234). Per spec section 4.2, strict precedence with
highest first: command-line argument when the entry declares a flag name and
it was supplied, then environment variable when declared and set, then the
optional config file when supplied and holding the key, then the entry's
default. -/
def resolveEntry (e : SchemaEntry) (argSrc envSrc : String → Option RawValue)
    (fileSrc : Option (String → Option RawValue)) : RawValue :=
  match e.arg.bind argSrc with
  | some v => v
  | none =>
    match e.env.bind envSrc with
    | some v => v
    | none =>
      match fileSrc.bind (fun f => f e.name) with
      | some v => v
      | none => e.defaultVal

/-- Split a character list at every dot. -/
def splitOnDot : List Char → List (List Char)
  | [] => [[]]
  | c :: rest =>
    match splitOnDot rest with
    | [] => [[c]]
    | p :: ps => if c = '.' then [] :: p :: ps else (c :: p) :: ps

/-- The numeric value of a decimal digit character, if it is one. -/
def digitVal (c : Char) : Option Nat :=
  if c.isDigit then some (c.toNat - 48) else none

/-- Read a character list as a decimal number, none on a non-digit. -/
def parseNatDigits (cs : List Char) : Option Nat :=
  cs.foldl
    (fun acc c =>
      match acc, digitVal c with
      | some a, some d => some (a * 10 + d)
      | _, _ => none)
    (some 0)

/-- One dotted-quad component of an IPv4 address: one to three digits whose
value is at most 255. -/
def isOctet (cs : List Char) : Bool :=
  0 < cs.length && cs.length ≤ 3 &&
    (match parseNatDigits cs with
     | some n => n ≤ 255
     | none => false)

/-- Modelled from the spec: IP-address syntax as checked by the external
convict library for the ipaddress format, here dotted-quad IPv4 (the shape of
every ipaddress entry in the schema). -/
def isIPAddress (s : String) : Bool :=
  let parts := splitOnDot s.toList
  parts.length = 4 && parts.all isOctet

/-- Modelled from the spec: the per-format value check of the external
convict library (spec section 4.3): IP-address syntax, integer-in-range port
(1 to 65535), plain integer, boolean, or arbitrary string. -/
def validateValue : Format → RawValue → Bool
  | .ipaddress, .str s => isIPAddress s
  | .port, .int n => 1 ≤ n && n ≤ 65535
  | .integer, .int _ => true
  | .string, .str _ => true
  | .boolean, .bool _ => true
  | _, _ => false

/-- A validation failure reports the offending key path and its expected
format. -/
structure ValidationError where
  key : String
  format : Format
deriving DecidableEq, Repr

/-- Modelled from the spec: resolve every schema entry through the layered
sources and validate each resolved value against its entry's format, stopping
at the first failing entry (spec section 4.3); on success, the validated
store as a list of key-value pairs in schema order. -/
def validateResolved (entries : List SchemaEntry)
    (argSrc envSrc : String → Option RawValue)
    (fileSrc : Option (String → Option RawValue)) :
    Except ValidationError (List (String × RawValue)) :=
  match entries with
  | [] => .ok []
  | e :: rest =>
    let v := resolveEntry e argSrc envSrc fileSrc
    if validateValue e.format v then
      match validateResolved rest argSrc envSrc fileSrc with
      | .ok xs => .ok ((e.name, v) :: xs)
      | .error err => .error err
    else
      .error ⟨e.name, e.format⟩

/-- The validated store, viewed through the typed keys the derived-option
builder reads (each field is one convictConf.get result). -/
structure Config where
  apiHost : String
  apiPort : Int
  apiAuthenticationMode : String
  apiAuthenticationAppName : String
  port : Int
  expiration : Int
  httpsEnable : Bool
  httpsCa : String
  httpsCert : String
  httpsKey : String
  httpsCrl : String
  loggingStdout : Bool
  loggingStdoutLevel : String
  loggingLogfile : String
  loggingLogfileLevel : String
  loggingReqBody : Bool
  loggingClientDetail : Bool
  serviceName : String
  serviceVersion : String
  maxBodySize : Int
  throttleBurst : Int
  throttleRate : Int
  websocketSocketIoEnable : Bool
  websocketSocketIoPort : Int
  websocketWsEnable : Bool
  websocketWsPort : Int
  longpollMaxbuffersize : Int
  longpollPollfrequency : Int
  longpollPolltimeout : Int
deriving DecidableEq, Repr

/-- A byte buffer, the result of a successful fs.readFileSync. -/
abbrev ByteBuf := List Nat

/-- The filesystem: maps a resolved path to the file's contents, or none when
the file cannot be read (fs.readFileSync throws). -/
abbrev FileSystem := String → Option ByteBuf

/-- Models path.resolve of a path relative to the fixed module directory
(config.ts resolves every file path against its own directory). -/
def resolvePath (rel : String) : String :=
  "__dirname/" ++ rel

/-- Fatal errors thrown during bundle construction: an unsupported
authentication mode (config.ts line 331) or unreadable TLS material
(fs.readFileSync throwing, config.ts lines 296-309). -/
inductive ConfigError where
  | authConfigError (message : String)
  | materialReadError (p : String)
deriving DecidableEq, Repr

/-- Where a bunyan log stream writes. -/
inductive StreamSink where
  | file (p : String)
  | stdout
deriving DecidableEq, Repr

/-- One bunyan stream: a level and a sink. -/
structure LogStream where
  level : String
  sink : StreamSink
deriving DecidableEq, Repr

/-- Bunyan logger options bundle (the serializer functions are modeled
separately as resSerializer below, they are process-global functions). -/
structure LoggerOptions where
  name : String
  streams : List LogStream
deriving DecidableEq, Repr

/-- Restify bodyParser plugin options bundle. -/
structure BodyParserOptions where
  maxBodySize : Int
  mapParams : Bool
deriving DecidableEq, Repr

/-- One per-address override in the throttle table. -/
structure ThrottleOverride where
  rate : Int
  burst : Int
deriving DecidableEq, Repr

/-- Restify throttle plugin options bundle. -/
structure ThrottleOptions where
  burst : Int
  rate : Int
  ip : Bool
  overrides : List (String × ThrottleOverride)
deriving DecidableEq, Repr

/-- TLS material of the server bundle: present only when https is enabled,
and then always with all of key, cert and ca. -/
structure HttpsServerOptions where
  key : ByteBuf
  cert : ByteBuf
  ca : ByteBuf
  requestCert : Bool
  rejectUnauthorized : Bool
  crl : Option ByteBuf
deriving DecidableEq, Repr

/-- HTTP(S) server options bundle. -/
structure ServerOptions where
  name : String
  version : String
  acceptable : List String
  httpsServerOptions : Option HttpsServerOptions
deriving DecidableEq, Repr

/-- The inner blpapi session options object. -/
structure BlpapiSessionOptions where
  serverHost : String
  serverPort : Int
  authenticationOptions : Option String
deriving DecidableEq, Repr

/-- BLPAPI session options bundle. -/
structure SessionOptions where
  blpapiSessionOptions : BlpapiSessionOptions
  authorizeOnStartup : Bool
deriving DecidableEq, Repr

/-- Logging bundle construction (config.ts lines 255-267): always a file
stream at the configured path and level, plus a stdout stream only when
logging.stdout is set. -/
def buildLoggerOptions (c : Config) : LoggerOptions :=
  let streams := [⟨c.loggingLogfileLevel, .file c.loggingLogfile⟩]
  let streams :=
    if c.loggingStdout then streams ++ [⟨c.loggingStdoutLevel, .stdout⟩]
    else streams
  { name := c.serviceName, streams := streams }

/-- Body-parser bundle construction (config.ts lines 270-273). -/
def buildBodyParserOptions (c : Config) : BodyParserOptions :=
  { maxBodySize := c.maxBodySize, mapParams := false }

/-- Throttle bundle construction (config.ts lines 276-286). -/
def buildThrottleOptions (c : Config) : ThrottleOptions :=
  { burst := c.throttleBurst, rate := c.throttleRate, ip := true,
    overrides := [("127.0.0.1", ⟨0, 0⟩)] }

/-- Result of building the server bundle: the bundle itself, and the path on
which a crl file watch was armed, if any. -/
structure ServerBuild where
  opts : ServerOptions
  watchedPath : Option String
deriving DecidableEq, Repr

/-- Server bundle construction (config.ts lines 289-317): name, version and
the accepted content type always; when https.enable is set, read key, cert
and ca synchronously (any failure is fatal) with mutual-TLS settings; when
additionally https.crl is a non-empty string, read the crl file and arm a
filesystem watch on its resolved path. -/
def buildServerOptions (c : Config) (fsys : FileSystem) :
    Except ConfigError ServerBuild :=
  let base : ServerOptions :=
    { name := c.serviceName, version := c.serviceVersion,
      acceptable := ["application/json"], httpsServerOptions := none }
  if c.httpsEnable then
    match fsys (resolvePath c.httpsKey) with
    | none => .error (.materialReadError (resolvePath c.httpsKey))
    | some keyBuf =>
      match fsys (resolvePath c.httpsCert) with
      | none => .error (.materialReadError (resolvePath c.httpsCert))
      | some certBuf =>
        match fsys (resolvePath c.httpsCa) with
        | none => .error (.materialReadError (resolvePath c.httpsCa))
        | some caBuf =>
          let hso : HttpsServerOptions :=
            { key := keyBuf, cert := certBuf, ca := caBuf,
              requestCert := true, rejectUnauthorized := true, crl := none }
          if c.httpsCrl ≠ "" then
            let crlPath := resolvePath c.httpsCrl
            match fsys crlPath with
            | none => .error (.materialReadError crlPath)
            | some crlBuf =>
              .ok { opts := { base with httpsServerOptions :=
                                (some { hso with crl := some crlBuf }) },
                    watchedPath := some crlPath }
          else
            .ok { opts := { base with httpsServerOptions := some hso },
                  watchedPath := none }
  else
    .ok { opts := base, watchedPath := none }

/-- Session bundle construction (config.ts lines 319-349): host and port are
copied; with a non-empty application name the mode must be the literal
APPLICATION_ONLY (anything else throws an error naming the bad value), and
the authentication-options string and authorizeOnStartup are produced; with
an empty application name neither is. -/
def buildSessionOptions (c : Config) : Except ConfigError SessionOptions :=
  let base : BlpapiSessionOptions :=
    { serverHost := c.apiHost, serverPort := c.apiPort,
      authenticationOptions := none }
  if c.apiAuthenticationAppName ≠ "" then
    if c.apiAuthenticationMode ≠ "APPLICATION_ONLY" then
      .error (.authConfigError
        ("Bad value for api.authenticationMode: " ++ c.apiAuthenticationMode))
    else
      let authString :=
        "AuthenticationMode=" ++ c.apiAuthenticationMode ++
          ";ApplicationAuthenticationType=APPNAME_AND_KEY" ++
          ";ApplicationName=" ++ c.apiAuthenticationAppName
      .ok { blpapiSessionOptions :=
              ({ base with authenticationOptions := some authString }),
            authorizeOnStartup := true }
  else
    .ok { blpapiSessionOptions := base, authorizeOnStartup := false }

/-- The process state after startup: the validated store plus the otherConf
bundles. -/
structure AppState where
  config : Config
  loggerOptions : LoggerOptions
  bodyParserOptions : BodyParserOptions
  throttleOptions : ThrottleOptions
  serverOptions : ServerOptions
  sessionOptions : SessionOptions
deriving DecidableEq, Repr

/-- The startup block of config.ts (lines 236-349): build every bundle from
the validated store; a server or session construction failure aborts startup.
Returns the state and the crl path being watched, if a watch was armed. -/
def buildOtherConf (c : Config) (fsys : FileSystem) :
    Except ConfigError (AppState × Option String) :=
  match buildServerOptions c fsys with
  | .error e => .error e
  | .ok sb =>
    match buildSessionOptions c with
    | .error e => .error e
    | .ok sess =>
      .ok ({ config := c,
             loggerOptions := buildLoggerOptions c,
             bodyParserOptions := buildBodyParserOptions c,
             throttleOptions := buildThrottleOptions c,
             serverOptions := sb.opts,
             sessionOptions := sess }, sb.watchedPath)

/-- A value returned by the config accessor: either a validated scalar from
the schema store or one of the derived bundles. -/
inductive Value where
  | str (s : String)
  | int (n : Int)
  | bool (b : Bool)
  | logger (v : LoggerOptions)
  | bodyParser (v : BodyParserOptions)
  | throttle (v : ThrottleOptions)
  | server (v : ServerOptions)
  | session (v : SessionOptions)
deriving DecidableEq, Repr

/-- The otherConf bundle table keyed by its five flat names (the keys the
startup block stores, config.ts lines 263, 270, 276, 289, 346). -/
def otherConfLookup (st : AppState) (name : String) : Option Value :=
  if name = "loggerOptions" then some (.logger st.loggerOptions)
  else if name = "bodyParserOptions" then some (.bodyParser st.bodyParserOptions)
  else if name = "throttleOptions" then some (.throttle st.throttleOptions)
  else if name = "serverOptions" then some (.server st.serverOptions)
  else if name = "sessionOptions" then some (.session st.sessionOptions)
  else none

/-- convictConf.get over the validated store: every dotted leaf path of the
schema yields its validated value; any other name is not found (convict
throws). -/
def convictGet (c : Config) (name : String) : Option Value :=
  if name = "api.host" then some (.str c.apiHost)
  else if name = "api.port" then some (.int c.apiPort)
  else if name = "api.authenticationMode" then some (.str c.apiAuthenticationMode)
  else if name = "api.authenticationAppName" then
    some (.str c.apiAuthenticationAppName)
  else if name = "port" then some (.int c.port)
  else if name = "expiration" then some (.int c.expiration)
  else if name = "https.enable" then some (.bool c.httpsEnable)
  else if name = "https.ca" then some (.str c.httpsCa)
  else if name = "https.cert" then some (.str c.httpsCert)
  else if name = "https.key" then some (.str c.httpsKey)
  else if name = "https.crl" then some (.str c.httpsCrl)
  else if name = "logging.stdout" then some (.bool c.loggingStdout)
  else if name = "logging.stdoutLevel" then some (.str c.loggingStdoutLevel)
  else if name = "logging.logfile" then some (.str c.loggingLogfile)
  else if name = "logging.logfileLevel" then some (.str c.loggingLogfileLevel)
  else if name = "logging.reqBody" then some (.bool c.loggingReqBody)
  else if name = "logging.clientDetail" then some (.bool c.loggingClientDetail)
  else if name = "service.name" then some (.str c.serviceName)
  else if name = "service.version" then some (.str c.serviceVersion)
  else if name = "maxBodySize" then some (.int c.maxBodySize)
  else if name = "throttle.burst" then some (.int c.throttleBurst)
  else if name = "throttle.rate" then some (.int c.throttleRate)
  else if name = "websocket.socket-io.enable" then
    some (.bool c.websocketSocketIoEnable)
  else if name = "websocket.socket-io.port" then
    some (.int c.websocketSocketIoPort)
  else if name = "websocket.ws.enable" then some (.bool c.websocketWsEnable)
  else if name = "websocket.ws.port" then some (.int c.websocketWsPort)
  else if name = "longpoll.maxbuffersize" then some (.int c.longpollMaxbuffersize)
  else if name = "longpoll.pollfrequency" then some (.int c.longpollPollfrequency)
  else if name = "longpoll.polltimeout" then some (.int c.longpollPolltimeout)
  else none

/-- The config accessor get (config.ts lines 14-21): the otherConf bundle
table is consulted first by exact name; only on a miss is the name delegated
to the validated schema store; none models the not-found throw. -/
def get (st : AppState) (name : String) : Option Value :=
  match otherConfLookup st name with
  | some v => v
  | none => convictGet st.config name

/-- One step of the armed revocation-list watcher (the fs.watch callback,
config.ts lines 311-315): on a filesystem change event, re-read the crl file
and assign the fresh buffer to serverOptions.httpsServerOptions.crl, then
emit one change event with payload https.crl, delivered to every current
subscriber of the emitter. The step is defined (some) exactly when the file
is readable and the TLS material object exists, the situation in which the
watch was armed; the returned list pairs each subscriber with the one
notification payload it receives. -/
def crlWatchStep (crlPath : String) (fsys : FileSystem)
    (subscribers : List Nat) (st : AppState) :
    Option (AppState × List (Nat × String)) :=
  match fsys crlPath, st.serverOptions.httpsServerOptions with
  | some crlBuf, some hso =>
    some ({ st with serverOptions :=
              ({ st.serverOptions with httpsServerOptions :=
                  (some { hso with crl := some crlBuf }) }) },
          subscribers.map (fun s => (s, "https.crl")))
  | _, _ => none

/-- Input to the bunyan response serializer: nullish (null or undefined), or
a response object with an optional numeric statusCode, its header table, and
any other fields. -/
inductive ResValue where
  | nullish
  | obj (statusCode : Option Nat) (headers : List (String × String))
      (extra : List (String × String))
deriving DecidableEq, Repr

/-- Output of the bunyan response serializer: the input passed through
unchanged, or a record of exactly statusCode and header. -/
inductive SerializedRes where
  | passthrough (r : ResValue)
  | redacted (statusCode : Nat) (header : List (String × String))
deriving DecidableEq, Repr

/-- The overridden bunyan response serializer (config.ts lines 239-247): a
nullish input, or one whose statusCode is missing or 0 (falsy in the source
language), is returned unchanged; otherwise exactly statusCode and header are
kept. -/
def resSerializer (r : ResValue) : SerializedRes :=
  match r with
  | .nullish => .passthrough r
  | .obj statusCode headers _ =>
    match statusCode with
    | none => .passthrough r
    | some n => if n = 0 then .passthrough r else .redacted n headers

/-- The validated store holding every default value of the schema. -/
def defaultConfig : Config :=
  { apiHost := "127.0.0.1", apiPort := 8194,
    apiAuthenticationMode := "APPLICATION_ONLY",
    apiAuthenticationAppName := "",
    port := 80, expiration := 5,
    httpsEnable := false,
    httpsCa := "../keys/bloomberg-ca-crt.pem",
    httpsCert := "../keys/hackathon-crt.pem",
    httpsKey := "../keys/hackathon-key.pem",
    httpsCrl := "",
    loggingStdout := true, loggingStdoutLevel := "info",
    loggingLogfile := "blpapi-http.log", loggingLogfileLevel := "trace",
    loggingReqBody := false, loggingClientDetail := false,
    serviceName := "BLPAPI-HTTP", serviceVersion := "1.0.0",
    maxBodySize := 1024, throttleBurst := 100, throttleRate := 50,
    websocketSocketIoEnable := true, websocketSocketIoPort := 3001,
    websocketWsEnable := true, websocketWsPort := 3002,
    longpollMaxbuffersize := 50, longpollPollfrequency := 100,
    longpollPolltimeout := 30000 }

/-- A configuration enabling https, with no crl configured. -/
def tlsConfig : Config :=
  { defaultConfig with httpsEnable := true }

/-- A configuration enabling https with a crl file configured. -/
def tlsCrlConfig : Config :=
  { defaultConfig with httpsEnable := true, httpsCrl := "../keys/crl.pem" }

/-- A configuration keeping https disabled while a crl path is configured. -/
def disabledCrlConfig : Config :=
  { defaultConfig with httpsCrl := "../keys/crl.pem" }

/-- A configuration with a non-empty application name and the supported
authentication mode. -/
def appAuthConfig : Config :=
  { defaultConfig with apiAuthenticationAppName := "myApp" }

/-- A configuration with a non-empty application name and an unsupported
authentication mode. -/
def badModeConfig : Config :=
  { defaultConfig with apiAuthenticationAppName := "myApp",
                       apiAuthenticationMode := "USER_AND_APPLICATION" }

/-- A filesystem holding the three TLS material files of the default paths
plus the crl file of tlsCrlConfig. -/
def fsFull : FileSystem := fun p =>
  if p = resolvePath "../keys/hackathon-key.pem" then some [107, 1]
  else if p = resolvePath "../keys/hackathon-crt.pem" then some [99, 2]
  else if p = resolvePath "../keys/bloomberg-ca-crt.pem" then some [97, 3]
  else if p = resolvePath "../keys/crl.pem" then some [82, 4]
  else none

/-- The filesystem fsFull after the crl file has been rewritten with new
contents. -/
def fsNewCrl : FileSystem := fun p =>
  if p = resolvePath "../keys/crl.pem" then some [82, 5] else fsFull p

/-- A filesystem in which the key file exists but is empty, while cert and
trust anchor are non-empty. -/
def fsEmptyKey : FileSystem := fun p =>
  if p = resolvePath "../keys/hackathon-key.pem" then some [] else fsFull p

/-- A filesystem missing the certificate file. -/
def fsNoCert : FileSystem := fun p =>
  if p = resolvePath "../keys/hackathon-crt.pem" then none else fsFull p

/-- The TLS material object of the example state. -/
def exampleHso : HttpsServerOptions :=
  { key := [107, 1], cert := [99, 2], ca := [97, 3],
    requestCert := true, rejectUnauthorized := true,
    crl := some [82, 4] }

/-- The example session bundle built from the default api settings. -/
def exampleSession : SessionOptions :=
  { blpapiSessionOptions :=
      { serverHost := "127.0.0.1", serverPort := 8194,
        authenticationOptions := none },
    authorizeOnStartup := false }

/-- The post-startup state produced by buildOtherConf on tlsCrlConfig and
fsFull (checked by buildOtherConf_example below). -/
def exampleState : AppState :=
  { config := tlsCrlConfig,
    loggerOptions := buildLoggerOptions tlsCrlConfig,
    bodyParserOptions := buildBodyParserOptions tlsCrlConfig,
    throttleOptions := buildThrottleOptions tlsCrlConfig,
    serverOptions :=
      { name := "BLPAPI-HTTP", version := "1.0.0",
        acceptable := ["application/json"],
        httpsServerOptions := some exampleHso },
    sessionOptions := exampleSession }

/-- The example state after one watcher reload against fsNewCrl. -/
def exampleStateReloaded : AppState :=
  { exampleState with serverOptions :=
      ({ exampleState.serverOptions with
          httpsServerOptions := (some { exampleHso with crl := some [82, 5] }) }) }

/-- A CLI source supplying only the HTTP port flag, with value 8080. -/
def argSrcEx : String → Option RawValue :=
  fun n => if n = "port" then some (.int 8080) else none

/-- A CLI source supplying only the HTTP port flag, with value 0. -/
def argSrcPortZero : String → Option RawValue :=
  fun n => if n = "port" then some (.int 0) else none

/-- An environment supplying only BLPAPI_HTTP_PORT, with value 8081. -/
def envSrcEx : String → Option RawValue :=
  fun n => if n = "BLPAPI_HTTP_PORT" then some (.int 8081) else none

/-- A config file supplying only the port key, with value 8082. -/
def fileSrcEx : String → Option RawValue :=
  fun n => if n = "port" then some (.int 8082) else none

/-- The schema entry for the HTTP listen port. -/
def portEntry : SchemaEntry :=
  ⟨"port", .port, .int 80, some "BLPAPI_HTTP_PORT", some "port"⟩

/-- The TLS material object produced from fsEmptyKey: the key buffer is
empty because the key file is empty. -/
def emptyKeyHso : HttpsServerOptions :=
  { key := [], cert := [99, 2], ca := [97, 3],
    requestCert := true, rejectUnauthorized := true, crl := none }

/-- Sanity check: buildOtherConf on the example inputs yields exampleState
and arms the watch on the resolved crl path. -/
theorem buildOtherConf_example :
    buildOtherConf tlsCrlConfig fsFull =
      .ok (exampleState, some (resolvePath "../keys/crl.pem")) := by
  rfl

/-- C1: session/auth bundle construction is a three-way case split: with a
non-empty application name and mode equal to the literal APPLICATION_ONLY,
the authenticationOptions string is exactly
AuthenticationMode=mode;ApplicationAuthenticationType=APPNAME_AND_KEY;ApplicationName=appName
and authorizeOnStartup is true; with a non-empty application name and any
other mode, construction fails with an error naming that mode value; with an
empty application name, no authenticationOptions field is produced and
authorizeOnStartup is false, whatever the mode. -/
theorem sessionOptions_three_way (c : Config) :
    (c.apiAuthenticationAppName ≠ "" →
      c.apiAuthenticationMode = "APPLICATION_ONLY" →
      buildSessionOptions c = .ok
        { blpapiSessionOptions :=
            { serverHost := c.apiHost, serverPort := c.apiPort,
              authenticationOptions := some
                ("AuthenticationMode=" ++ c.apiAuthenticationMode ++
                 ";ApplicationAuthenticationType=APPNAME_AND_KEY" ++
                 ";ApplicationName=" ++ c.apiAuthenticationAppName) },
          authorizeOnStartup := true }) ∧
    (c.apiAuthenticationAppName ≠ "" →
      c.apiAuthenticationMode ≠ "APPLICATION_ONLY" →
      buildSessionOptions c = .error (.authConfigError
        ("Bad value for api.authenticationMode: " ++ c.apiAuthenticationMode))) ∧
    (c.apiAuthenticationAppName = "" →
      buildSessionOptions c = .ok
        { blpapiSessionOptions :=
            { serverHost := c.apiHost, serverPort := c.apiPort,
              authenticationOptions := none },
          authorizeOnStartup := false }) := by
  refine ⟨?_, ?_, ?_⟩
  · intro hname hmode
    simp [buildSessionOptions, hname, hmode]
  · intro hname hmode
    simp [buildSessionOptions, hname, hmode]
  · intro hname
    simp [buildSessionOptions, hname]

/-- Witness for C1 at the concrete configuration with application name myApp
and mode APPLICATION_ONLY. -/
theorem sessionOptions_three_way_witness :
    buildSessionOptions appAuthConfig = .ok
      { blpapiSessionOptions :=
          { serverHost := "127.0.0.1", serverPort := 8194,
            authenticationOptions := some
              "AuthenticationMode=APPLICATION_ONLY;ApplicationAuthenticationType=APPNAME_AND_KEY;ApplicationName=myApp" },
        authorizeOnStartup := true } :=
  (sessionOptions_three_way appAuthConfig).1 (by decide) rfl

/-- C5: the layered resolver obeys strict precedence for every entry that
declares a CLI flag and an environment variable: with all four sources
present the CLI value wins; removing it yields the environment value; then
the config-file value; then the entry's default. -/
theorem resolveEntry_precedence (e : SchemaEntry) (a ev : String)
    (ha : e.arg = some a) (he : e.env = some ev)
    (argSrc envSrc fileSrc : String → Option RawValue) (vA vE vF : RawValue)
    (hA : argSrc a = some vA) (hE : envSrc ev = some vE)
    (hF : fileSrc e.name = some vF) :
    resolveEntry e argSrc envSrc (some fileSrc) = vA ∧
    resolveEntry e (fun _ => none) envSrc (some fileSrc) = vE ∧
    resolveEntry e (fun _ => none) (fun _ => none) (some fileSrc) = vF ∧
    resolveEntry e (fun _ => none) (fun _ => none) none = e.defaultVal := by
  refine ⟨?_, ?_, ?_, ?_⟩ <;>
    simp [resolveEntry, ha, he, hA, hE, hF]

/-- Witness for C5 at the HTTP port entry, with CLI value 8080, environment
value 8081, config-file value 8082 and default 80. -/
theorem resolveEntry_precedence_witness :
    resolveEntry portEntry argSrcEx envSrcEx (some fileSrcEx) = .int 8080 ∧
    resolveEntry portEntry (fun _ => none) envSrcEx (some fileSrcEx) = .int 8081 ∧
    resolveEntry portEntry (fun _ => none) (fun _ => none) (some fileSrcEx) =
      .int 8082 ∧
    resolveEntry portEntry (fun _ => none) (fun _ => none) none = .int 80 :=
  resolveEntry_precedence portEntry "port" "BLPAPI_HTTP_PORT" rfl rfl
    argSrcEx envSrcEx fileSrcEx (.int 8080) (.int 8081) (.int 8082)
    rfl rfl rfl

/-- C7: the response log-redaction function returns its input unchanged when
the input is nullish or lacks a status code (so it never fails there), and
reduces a response carrying a status code and headers to exactly the record
of statusCode and header. -/
theorem resSerializer_redaction :
    resSerializer .nullish = .passthrough .nullish ∧
    (∀ hs ex, resSerializer (.obj none hs ex) = .passthrough (.obj none hs ex)) ∧
    (∀ n hs ex, n ≠ 0 →
      resSerializer (.obj (some n) hs ex) = .redacted n hs) := by
  refine ⟨rfl, fun hs ex => rfl, fun n hs ex hn => ?_⟩
  simp [resSerializer, hn]

/-- Witness for C7 at a concrete response with status code 200. -/
theorem resSerializer_redaction_witness :
    resSerializer
        (.obj (some 200) [("content-type", "application/json")]
          [("body", "secret")]) =
      .redacted 200 [("content-type", "application/json")] :=
  resSerializer_redaction.2.2 200 [("content-type", "application/json")]
    [("body", "secret")] (by decide)

/-- C8: the throttle bundle's override table is unconditionally the loopback
exemption 127.0.0.1 with rate 0 and burst 0, while burst and rate themselves
come from the configuration. -/
theorem throttleOptions_loopback (c : Config) :
    (buildThrottleOptions c).overrides = [("127.0.0.1", ⟨0, 0⟩)] ∧
    (buildThrottleOptions c).burst = c.throttleBurst ∧
    (buildThrottleOptions c).rate = c.throttleRate :=
  ⟨rfl, rfl, rfl⟩

/-- C3: each change event observed by the armed watcher replaces the
revocation buffer wholesale, leaving it equal to the watched file's current
contents exactly, and delivers exactly one change notification with payload
https.crl to each current subscriber. -/
theorem crlWatchStep_reload (crlPath : String) (fsys : FileSystem)
    (subs : List Nat) (st st2 : AppState) (ntf : List (Nat × String))
    (buf : ByteBuf) (hfile : fsys crlPath = some buf)
    (hstep : crlWatchStep crlPath fsys subs st = some (st2, ntf)) :
    (∃ hso, st2.serverOptions.httpsServerOptions = some hso ∧
      hso.crl = some buf) ∧
    ntf = subs.map (fun s => (s, "https.crl")) := by
  unfold crlWatchStep at hstep
  rw [hfile] at hstep
  cases hh : st.serverOptions.httpsServerOptions with
  | none => rw [hh] at hstep; exact absurd hstep (by simp)
  | some hso =>
    rw [hh] at hstep
    simp only [Option.some.injEq, Prod.mk.injEq] at hstep
    obtain ⟨hst2, hntf⟩ := hstep
    subst hst2
    exact ⟨⟨{ hso with crl := some buf }, rfl, rfl⟩, hntf.symm⟩

/-- Witness for C3: one reload of the example state against the rewritten
crl file, with two subscribers. -/
theorem crlWatchStep_reload_witness :
    (∃ hso, exampleStateReloaded.serverOptions.httpsServerOptions = some hso ∧
      hso.crl = some [82, 5]) ∧
    ([(0, "https.crl"), (1, "https.crl")] : List (Nat × String)) =
      ([0, 1] : List Nat).map (fun s => (s, "https.crl")) :=
  crlWatchStep_reload (resolvePath "../keys/crl.pem") fsNewCrl [0, 1]
    exampleState exampleStateReloaded [(0, "https.crl"), (1, "https.crl")]
    [82, 5] rfl rfl

/-- C10: a watcher reload step mutates only the crl field of the server
bundle: the validated store, every other bundle, the server bundle's name,
version and acceptable fields, and the key, cert, trust-anchor, requestCert
and rejectUnauthorized material are all unchanged. -/
theorem crlWatchStep_frame (crlPath : String) (fsys : FileSystem)
    (subs : List Nat) (st st2 : AppState) (ntf : List (Nat × String))
    (hstep : crlWatchStep crlPath fsys subs st = some (st2, ntf)) :
    st2.config = st.config ∧
    st2.loggerOptions = st.loggerOptions ∧
    st2.bodyParserOptions = st.bodyParserOptions ∧
    st2.throttleOptions = st.throttleOptions ∧
    st2.sessionOptions = st.sessionOptions ∧
    st2.serverOptions.name = st.serverOptions.name ∧
    st2.serverOptions.version = st.serverOptions.version ∧
    st2.serverOptions.acceptable = st.serverOptions.acceptable ∧
    (∃ hso hso2, st.serverOptions.httpsServerOptions = some hso ∧
      st2.serverOptions.httpsServerOptions = some hso2 ∧
      hso2.key = hso.key ∧ hso2.cert = hso.cert ∧ hso2.ca = hso.ca ∧
      hso2.requestCert = hso.requestCert ∧
      hso2.rejectUnauthorized = hso.rejectUnauthorized) := by
  unfold crlWatchStep at hstep
  cases hf : fsys crlPath with
  | none => rw [hf] at hstep; exact absurd hstep (by simp)
  | some buf =>
    rw [hf] at hstep
    cases hh : st.serverOptions.httpsServerOptions with
    | none => rw [hh] at hstep; exact absurd hstep (by simp)
    | some hso =>
      rw [hh] at hstep
      simp only [Option.some.injEq, Prod.mk.injEq] at hstep
      obtain ⟨hst2, hntf⟩ := hstep
      subst hst2
      exact ⟨rfl, rfl, rfl, rfl, rfl, rfl, rfl, rfl,
        hso, { hso with crl := some buf }, rfl, rfl, rfl, rfl, rfl, rfl, rfl⟩

/-- Witness for C10: the reload of the example state changes nothing but the
crl buffer; here its session bundle, store and server identity fields. -/
theorem crlWatchStep_frame_witness :
    exampleStateReloaded.config = exampleState.config ∧
    exampleStateReloaded.sessionOptions = exampleState.sessionOptions ∧
    exampleStateReloaded.serverOptions.name =
      exampleState.serverOptions.name := by
  have h := crlWatchStep_frame (resolvePath "../keys/crl.pem") fsNewCrl
    [0, 1] exampleState exampleStateReloaded
    [(0, "https.crl"), (1, "https.crl")] rfl
  exact ⟨h.1, h.2.2.2.2.1, h.2.2.2.2.2.1⟩

/-- C9: with https.enable false the revocation-list machinery is unreachable:
construction succeeds with a bundle carrying neither TLS material nor a crl
field, no watch is armed, and the result does not depend on the filesystem
(no file is read), even when the crl path is non-empty. -/
theorem serverOptions_disabled (c : Config) (fsys : FileSystem)
    (h : c.httpsEnable = false) :
    buildServerOptions c fsys = .ok
      { opts := { name := c.serviceName, version := c.serviceVersion,
                  acceptable := ["application/json"],
                  httpsServerOptions := none },
        watchedPath := none } ∧
    (∀ fsys2 : FileSystem,
      buildServerOptions c fsys = buildServerOptions c fsys2) := by
  constructor
  · simp [buildServerOptions, h]
  · intro fsys2
    simp [buildServerOptions, h]

/-- Witness for C9: https disabled with a non-empty crl path configured; the
bundle has no TLS material and no watch is armed. -/
theorem serverOptions_disabled_witness :
    buildServerOptions disabledCrlConfig fsFull = .ok
      { opts := { name := "BLPAPI-HTTP", version := "1.0.0",
                  acceptable := ["application/json"],
                  httpsServerOptions := none },
        watchedPath := none } :=
  (serverOptions_disabled disabledCrlConfig fsFull rfl).1

/-- C4: the accessor consults the bundle table first, by exact flat name, so
a bundle name always wins; on a bundle miss it delegates to the validated
store with dotted-path traversal (https.enable yields the validated boolean);
dotted traversal into a bundle's internals finds nothing, and a name unknown
to both yields the not-found outcome. -/
theorem get_lookup_order (st : AppState) (name : String) :
    (∀ v, otherConfLookup st name = some v → get st name = some v) ∧
    (otherConfLookup st name = none →
      get st name = convictGet st.config name) ∧
    get st "https.enable" = some (.bool st.config.httpsEnable) ∧
    get st "serverOptions" = some (.server st.serverOptions) ∧
    get st "sessionOptions.authorizeOnStartup" = none := by
  refine ⟨?_, ?_, ?_, ?_, ?_⟩
  · intro v hv
    unfold get
    rw [hv]
  · intro hv
    unfold get
    rw [hv]
  · simp [get, otherConfLookup, convictGet]
  · simp [get, otherConfLookup]
  · simp [get, otherConfLookup, convictGet]

/-- Witness for C4: on the example state, the bundle name throttleOptions
resolves to the throttle bundle through the bundle table. -/
theorem get_lookup_order_witness :
    get exampleState "throttleOptions" =
      some (.throttle (buildThrottleOptions tlsCrlConfig)) :=
  (get_lookup_order exampleState "throttleOptions").1
    (.throttle (buildThrottleOptions tlsCrlConfig)) rfl

/-- C2 counterexample: with https enabled and the key file readable but
empty, construction succeeds and the bundle's key material is the empty byte
buffer, so the claim that the three TLS buffers are always non-empty fails
at this input. -/
theorem serverOptions_empty_key_accepted :
    buildServerOptions tlsConfig fsEmptyKey = .ok
      { opts := { name := "BLPAPI-HTTP", version := "1.0.0",
                  acceptable := ["application/json"],
                  httpsServerOptions := some emptyKeyHso },
        watchedPath := none } := by
  rfl

/-- C2 (amended): for every configuration under which construction succeeds,
the server/TLS bundle is all-or-nothing: with TLS disabled it has no TLS
material field; with TLS enabled it has all three of key, certificate and
trust anchor (never a partial subset), each equal to the contents of the
corresponding file, with requestCert and rejectUnauthorized both true; and
when TLS is enabled and any of the three files cannot be read, construction
fails with a material read error. -/
theorem serverOptions_all_or_nothing (c : Config) (fsys : FileSystem) :
    (∀ r, buildServerOptions c fsys = .ok r →
      (c.httpsEnable = false → r.opts.httpsServerOptions = none) ∧
      (c.httpsEnable = true →
        ∃ hso, r.opts.httpsServerOptions = some hso ∧
          fsys (resolvePath c.httpsKey) = some hso.key ∧
          fsys (resolvePath c.httpsCert) = some hso.cert ∧
          fsys (resolvePath c.httpsCa) = some hso.ca ∧
          hso.requestCert = true ∧ hso.rejectUnauthorized = true)) ∧
    (c.httpsEnable = true →
      (fsys (resolvePath c.httpsKey) = none ∨
       fsys (resolvePath c.httpsCert) = none ∨
       fsys (resolvePath c.httpsCa) = none) →
      ∃ p, buildServerOptions c fsys = .error (.materialReadError p)) := by
  cases hEn : c.httpsEnable with
  | false =>
    refine ⟨?_, ?_⟩
    · intro r hr
      simp only [buildServerOptions, hEn, if_false, Bool.false_eq_true,
        Except.ok.injEq] at hr
      subst hr
      exact ⟨fun _ => rfl, fun hT => by simp [hEn] at hT⟩
    · intro hT
      simp [hEn] at hT
  | true =>
    cases hk : fsys (resolvePath c.httpsKey) with
    | none =>
      refine ⟨?_, ?_⟩
      · intro r hr
        simp [buildServerOptions, hEn, hk] at hr
      · intro _ _
        exact ⟨resolvePath c.httpsKey, by simp [buildServerOptions, hEn, hk]⟩
    | some kb =>
      cases hc : fsys (resolvePath c.httpsCert) with
      | none =>
        refine ⟨?_, ?_⟩
        · intro r hr
          simp [buildServerOptions, hEn, hk, hc] at hr
        · intro _ _
          exact ⟨resolvePath c.httpsCert,
            by simp [buildServerOptions, hEn, hk, hc]⟩
      | some cb =>
        cases ha : fsys (resolvePath c.httpsCa) with
        | none =>
          refine ⟨?_, ?_⟩
          · intro r hr
            simp [buildServerOptions, hEn, hk, hc, ha] at hr
          · intro _ _
            exact ⟨resolvePath c.httpsCa,
              by simp [buildServerOptions, hEn, hk, hc, ha]⟩
        | some ab =>
          refine ⟨?_, ?_⟩
          · intro r hr
            refine ⟨fun hF => by simp [hEn] at hF, fun _ => ?_⟩
            by_cases hcrl : c.httpsCrl = ""
            · simp only [buildServerOptions, hEn, hk, hc, ha, hcrl,
                if_true, ne_eq, not_true_eq_false, if_false,
                Except.ok.injEq] at hr
              subst hr
              exact ⟨{ key := kb, cert := cb, ca := ab,
                       requestCert := true, rejectUnauthorized := true,
                       crl := none }, rfl, rfl, rfl, rfl, rfl, rfl⟩
            · cases hcr : fsys (resolvePath c.httpsCrl) with
              | none =>
                simp [buildServerOptions, hEn, hk, hc, ha, hcrl, hcr] at hr
              | some rb =>
                simp only [buildServerOptions, hEn, hk, hc, ha, hcrl, hcr,
                  if_true, ne_eq, not_false_eq_true, if_false,
                  Except.ok.injEq] at hr
                subst hr
                exact ⟨{ key := kb, cert := cb, ca := ab,
                         requestCert := true, rejectUnauthorized := true,
                         crl := some rb }, rfl, rfl, rfl, rfl, rfl, rfl⟩
          · intro _ hmiss
            simp [hk, hc, ha] at hmiss

/-- Witness for C2 (amended) at the error part: https enabled with the
certificate file missing makes construction fail with a material read
error. -/
theorem serverOptions_all_or_nothing_witness :
    ∃ p, buildServerOptions tlsConfig fsNoCert =
      .error (.materialReadError p) :=
  (serverOptions_all_or_nothing tlsConfig fsNoCert).2 rfl
    (Or.inr (Or.inl rfl))

/-- C6: the port format accepts exactly the integers 1 to 65535 (both
boundary values included), rejecting 0 and 70000; a resolved store carrying
an out-of-range port fails validation reporting the offending key and its
expected format; and an ipaddress-format value failing the IP syntax check
is rejected. -/
theorem port_format_validation :
    (∀ n : Int, validateValue .port (.int n) = true ↔ 1 ≤ n ∧ n ≤ 65535) ∧
    validateValue .port (.int 1) = true ∧
    validateValue .port (.int 65535) = true ∧
    validateValue .port (.int 0) = false ∧
    validateValue .port (.int 70000) = false ∧
    (∀ s : String, isIPAddress s = false →
      validateValue .ipaddress (.str s) = false) ∧
    validateResolved schema argSrcPortZero (fun _ => none) none =
      .error ⟨"port", .port⟩ := by
  refine ⟨?_, by decide, by decide, by decide, by decide, ?_, by rfl⟩
  · intro n
    simp [validateValue, Bool.and_eq_true, decide_eq_true_eq]
  · intro s hs
    simp [validateValue, hs]

/-- Witness for C6: the port-range characterization at 3, and rejection of a
syntactically invalid IP address. -/
theorem port_format_validation_witness :
    (validateValue .port (.int 3) = true ↔
      1 ≤ (3 : Int) ∧ (3 : Int) ≤ 65535) ∧
    validateValue .ipaddress (.str "999.0.0.1") = false :=
  ⟨port_format_validation.1 3,
   port_format_validation.2.2.2.2.2.1 "999.0.0.1" (by decide)⟩

end BlpapiHttp
